import Mathlib

/-!
Verification of the virtgpu virgl buffer-allocation backend
(`virtgpu_virgl.c`).  The definitions below are a shallow embedding of the
C source: machine words (`uint32_t`, `uint64_t`) are modelled as `Nat` with
explicit bitwise operations, fallible or partially-initialized outputs are
modelled with `Option`, and host ioctls are modelled as explicit oracles.
-/

/-- DIV_ROUND_UP from util.h: ceiling division `(n + d - 1) / d`. -/
def DIV_ROUND_UP (n d : Nat) : Nat := (n + d - 1) / d

/-- ALIGN from util.h: round `n` up to a multiple of `a`. -/
def ALIGN (n a : Nat) : Nat := DIV_ROUND_UP n a * a

/-- Mask of a 64-bit word, used to model C's `~` complement on `uint64_t`. -/
def mask64 : Nat := 2 ^ 64 - 1

/-- Model of the C expression `u & ~m` on `uint64_t` operands: clear from `u`
every bit of `m` (and truncate to 64 bits, as the C type does). -/
def andNot (u m : Nat) : Nat := u &&& (m ^^^ mask64)

/- DRM fourcc format codes, as produced by `fourcc_code` in drm_fourcc.h
(headers outside src/; values computed from the fourcc character codes). -/

/-- fourcc_code from drm_fourcc.h: pack four character codes into a word. -/
def fourcc_code (a b c d : Nat) : Nat := a ||| (b <<< 8) ||| (c <<< 16) ||| (d <<< 24)

def DRM_FORMAT_R8 : Nat := fourcc_code 82 56 32 32
def DRM_FORMAT_R16 : Nat := fourcc_code 82 49 54 32
def DRM_FORMAT_RG88 : Nat := fourcc_code 82 71 56 56
def DRM_FORMAT_RGB565 : Nat := fourcc_code 82 71 49 54
def DRM_FORMAT_RGB888 : Nat := fourcc_code 82 71 50 52
def DRM_FORMAT_BGR888 : Nat := fourcc_code 66 71 50 52
def DRM_FORMAT_XRGB8888 : Nat := fourcc_code 88 82 50 52
def DRM_FORMAT_ARGB8888 : Nat := fourcc_code 65 82 50 52
def DRM_FORMAT_XBGR8888 : Nat := fourcc_code 88 66 50 52
def DRM_FORMAT_ABGR8888 : Nat := fourcc_code 65 66 50 52
def DRM_FORMAT_ABGR2101010 : Nat := fourcc_code 65 66 51 48
def DRM_FORMAT_ABGR16161616F : Nat := fourcc_code 65 66 52 72
def DRM_FORMAT_NV12 : Nat := fourcc_code 78 86 49 50
def DRM_FORMAT_NV21 : Nat := fourcc_code 78 86 50 49
def DRM_FORMAT_YVU420 : Nat := fourcc_code 89 86 49 50
def DRM_FORMAT_P010 : Nat := fourcc_code 80 48 49 48
def DRM_FORMAT_YVU420_ANDROID : Nat := fourcc_code 57 57 57 55
def DRM_FORMAT_FLEX_IMPLEMENTATION_DEFINED : Nat := fourcc_code 57 57 57 56
def DRM_FORMAT_FLEX_YCbCr_420_888 : Nat := fourcc_code 57 57 57 57

/-- DRM_FORMAT_MOD_LINEAR from drm_fourcc.h: the linear-layout modifier. -/
def DRM_FORMAT_MOD_LINEAR : Nat := 0

/- BO_USE usage bits, from drv.h (header outside src/).  The claims depend
only on the bits being pairwise distinct single bits, which they are in the
source header; positions follow the upstream header. -/

def BO_USE_SCANOUT : Nat := 2 ^ 0
def BO_USE_CURSOR : Nat := 2 ^ 1
def BO_USE_RENDERING : Nat := 2 ^ 2
def BO_USE_LINEAR : Nat := 2 ^ 4
def BO_USE_TEXTURE : Nat := 2 ^ 5
def BO_USE_CAMERA_WRITE : Nat := 2 ^ 6
def BO_USE_CAMERA_READ : Nat := 2 ^ 7
def BO_USE_PROTECTED : Nat := 2 ^ 8
def BO_USE_SW_READ_OFTEN : Nat := 2 ^ 9
def BO_USE_SW_READ_RARELY : Nat := 2 ^ 10
def BO_USE_SW_WRITE_OFTEN : Nat := 2 ^ 11
def BO_USE_SW_WRITE_RARELY : Nat := 2 ^ 12
def BO_USE_HW_VIDEO_DECODER : Nat := 2 ^ 13
def BO_USE_HW_VIDEO_ENCODER : Nat := 2 ^ 14
def BO_USE_FRONT_RENDERING : Nat := 2 ^ 16
def BO_USE_GPU_DATA_BUFFER : Nat := 2 ^ 18
def BO_USE_SENSOR_DIRECT_DATA : Nat := 2 ^ 19
def BO_USE_ARC_SCREEN_CAP_PROBED : Nat := 2 ^ 20

/-- BO_USE_SW_MASK from drv_priv.h: every CPU-mapping (software) usage bit. -/
def BO_USE_SW_MASK : Nat :=
  BO_USE_SW_READ_OFTEN ||| BO_USE_SW_READ_RARELY ||| BO_USE_SW_WRITE_OFTEN |||
    BO_USE_SW_WRITE_RARELY

/-- BO_USE_NON_GPU_HW from drv_priv.h: usage by non-GPU hardware. -/
def BO_USE_NON_GPU_HW : Nat :=
  BO_USE_SCANOUT ||| BO_USE_CAMERA_WRITE ||| BO_USE_CAMERA_READ |||
    BO_USE_HW_VIDEO_DECODER ||| BO_USE_HW_VIDEO_ENCODER

/- VIRGL host pixel-format codes, from external/virgl_hw.h (outside src/).
The claims use only that the codes of translated formats are nonzero and
pairwise distinct. -/

def VIRGL_FORMAT_B8G8R8A8_UNORM : Nat := 1
def VIRGL_FORMAT_B8G8R8X8_UNORM : Nat := 2
def VIRGL_FORMAT_B5G6R5_UNORM : Nat := 7
def VIRGL_FORMAT_R10G10B10A2_UNORM : Nat := 8
def VIRGL_FORMAT_R8_UNORM : Nat := 64
def VIRGL_FORMAT_R8G8_UNORM : Nat := 66
def VIRGL_FORMAT_R8G8B8_UNORM : Nat := 68
def VIRGL_FORMAT_R8G8B8A8_UNORM : Nat := 67
def VIRGL_FORMAT_R8G8B8X8_UNORM : Nat := 70
def VIRGL_FORMAT_R16_UNORM : Nat := 109
def VIRGL_FORMAT_R16G16B16A16_FLOAT : Nat := 94
def VIRGL_FORMAT_YV12 : Nat := 163
def VIRGL_FORMAT_NV12 : Nat := 166
def VIRGL_FORMAT_NV21 : Nat := 167
def VIRGL_FORMAT_P010 : Nat := 314

/- VIRGL bind bits, from external/virgl_hw.h (outside src/); again the
claims depend only on pairwise distinctness. -/

def VIRGL_BIND_RENDER_TARGET : Nat := 2 ^ 1
def VIRGL_BIND_SAMPLER_VIEW : Nat := 2 ^ 3
def VIRGL_BIND_CURSOR : Nat := 2 ^ 16
def VIRGL_BIND_SCANOUT : Nat := 2 ^ 18
def VIRGL_BIND_SHARED : Nat := 2 ^ 20
def VIRGL_BIND_LINEAR : Nat := 2 ^ 22
def VIRGL_BIND_MINIGBM_CAMERA_WRITE : Nat := 2 ^ 23
def VIRGL_BIND_MINIGBM_CAMERA_READ : Nat := 2 ^ 24
def VIRGL_BIND_MINIGBM_HW_VIDEO_DECODER : Nat := 2 ^ 25
def VIRGL_BIND_MINIGBM_HW_VIDEO_ENCODER : Nat := 2 ^ 26
def VIRGL_BIND_MINIGBM_PROTECTED : Nat := 2 ^ 27
def VIRGL_BIND_MINIGBM_SW_READ_OFTEN : Nat := 2 ^ 28
def VIRGL_BIND_MINIGBM_SW_READ_RARELY : Nat := 2 ^ 29
def VIRGL_BIND_MINIGBM_SW_WRITE_OFTEN : Nat := 2 ^ 30
def VIRGL_BIND_MINIGBM_SW_WRITE_RARELY : Nat := 2 ^ 31

/-- translate_format from virtgpu_virgl.c: DRM fourcc to VIRGL format code,
0 for an unhandled format. -/
def translate_format (drm_fourcc : Nat) : Nat :=
  if drm_fourcc = DRM_FORMAT_BGR888 ∨ drm_fourcc = DRM_FORMAT_RGB888 then
    VIRGL_FORMAT_R8G8B8_UNORM
  else if drm_fourcc = DRM_FORMAT_XRGB8888 then VIRGL_FORMAT_B8G8R8X8_UNORM
  else if drm_fourcc = DRM_FORMAT_ARGB8888 then VIRGL_FORMAT_B8G8R8A8_UNORM
  else if drm_fourcc = DRM_FORMAT_XBGR8888 then VIRGL_FORMAT_R8G8B8X8_UNORM
  else if drm_fourcc = DRM_FORMAT_ABGR8888 then VIRGL_FORMAT_R8G8B8A8_UNORM
  else if drm_fourcc = DRM_FORMAT_ABGR16161616F then VIRGL_FORMAT_R16G16B16A16_FLOAT
  else if drm_fourcc = DRM_FORMAT_ABGR2101010 then VIRGL_FORMAT_R10G10B10A2_UNORM
  else if drm_fourcc = DRM_FORMAT_RGB565 then VIRGL_FORMAT_B5G6R5_UNORM
  else if drm_fourcc = DRM_FORMAT_R8 then VIRGL_FORMAT_R8_UNORM
  else if drm_fourcc = DRM_FORMAT_R16 then VIRGL_FORMAT_R16_UNORM
  else if drm_fourcc = DRM_FORMAT_RG88 then VIRGL_FORMAT_R8G8_UNORM
  else if drm_fourcc = DRM_FORMAT_NV12 then VIRGL_FORMAT_NV12
  else if drm_fourcc = DRM_FORMAT_NV21 then VIRGL_FORMAT_NV21
  else if drm_fourcc = DRM_FORMAT_P010 then VIRGL_FORMAT_P010
  else if drm_fourcc = DRM_FORMAT_YVU420 ∨ drm_fourcc = DRM_FORMAT_YVU420_ANDROID then
    VIRGL_FORMAT_YV12
  else 0

/-- Model of `struct virgl_supported_format_mask`: an array of 32-bit words
indexed by `virgl_format / 32`. -/
structure VirglSupportedFormatMask where
  bitmask : Nat → Nat

/-- virgl_bitmask_supports_format from virtgpu_virgl.c. -/
def virgl_bitmask_supports_format (supported : VirglSupportedFormatMask)
    (drm_format : Nat) : Bool :=
  let virgl_format := translate_format drm_format
  if virgl_format = 0 then false
  else
    let bitmask_index := virgl_format / 32
    let bit_index := virgl_format % 32
    decide (supported.bitmask bitmask_index &&& (1 <<< bit_index) ≠ 0)

/-- Model of `union virgl_caps` as used by the backend: the version tag and
the three per-usage format bitmasks, plus the v2 max texture size. -/
structure VirglCaps where
  max_version : Nat
  render : VirglSupportedFormatMask
  sampler : VirglSupportedFormatMask
  scanout : VirglSupportedFormatMask
  max_texture_2d_size : Nat

/-- Model of `struct virgl_priv` (the fields the claims touch). -/
structure VirglPriv where
  caps_is_v2 : Bool
  caps : VirglCaps
  host_gbm_enabled : Bool

/-- virgl_supports_combination_natively from virtgpu_virgl.c. -/
def virgl_supports_combination_natively (priv : VirglPriv) (drm_format use_flags : Nat) :
    Bool :=
  if priv.caps.max_version = 0 then true
  else if use_flags &&& BO_USE_RENDERING ≠ 0 ∧
      ¬ virgl_bitmask_supports_format priv.caps.render drm_format then false
  else if use_flags &&& BO_USE_TEXTURE ≠ 0 ∧
      ¬ virgl_bitmask_supports_format priv.caps.sampler drm_format then false
  else if use_flags &&& BO_USE_SCANOUT ≠ 0 ∧ priv.caps_is_v2 ∧
      ¬ virgl_bitmask_supports_format priv.caps.scanout drm_format then false
  else true

/-- virgl_supports_combination_through_emulation from virtgpu_virgl.c. -/
def virgl_supports_combination_through_emulation (priv : VirglPriv)
    (drm_format use_flags : Nat) : Bool :=
  if priv.host_gbm_enabled then false
  else if use_flags &&& (BO_USE_RENDERING ||| BO_USE_SCANOUT) ≠ 0 then false
  else if ¬ virgl_supports_combination_natively priv DRM_FORMAT_R8 use_flags then false
  else decide (drm_format = DRM_FORMAT_NV12 ∨ drm_format = DRM_FORMAT_NV21 ∨
    drm_format = DRM_FORMAT_YVU420 ∨ drm_format = DRM_FORMAT_YVU420_ANDROID)

/-- Model of the `struct bo_metadata` fields written by
`virgl_get_emulated_metadata`: the synthesized single-plane geometry.
Per-plane arrays are modelled as lists of length `num_planes`. -/
structure BoMetadata where
  format : Nat
  width : Nat
  height : Nat
  num_planes : Nat
  strides : List Nat
  offsets : List Nat
  sizes : List Nat
  total_size : Nat
  deriving DecidableEq, Repr

/-- virgl_get_emulated_metadata from virtgpu_virgl.c, as a function of the
logical width, height and format of the buffer.  The C default case writes
no geometry fields (the output struct stays uninitialized); this is
modelled as `none`. -/
def virgl_get_emulated_metadata (width height format : Nat) : Option BoMetadata :=
  if format = DRM_FORMAT_NV12 ∨ format = DRM_FORMAT_NV21 then
    -- Bi-planar
    let y_plane_height := height
    let c_plane_height := DIV_ROUND_UP height 2
    let w := width
    let h := y_plane_height + c_plane_height
    some { format := DRM_FORMAT_R8, width := w, height := h, num_planes := 2,
           strides := [w, w],
           offsets := [0, 0 + w * y_plane_height],
           sizes := [w * y_plane_height, w * c_plane_height],
           total_size := w * h }
  else if format = DRM_FORMAT_YVU420 ∨ format = DRM_FORMAT_YVU420_ANDROID then
    -- Tri-planar
    let y_plane_height := height
    let c_plane_height := DIV_ROUND_UP height 2
    let w := ALIGN width 32
    let h := y_plane_height + 2 * c_plane_height
    some { format := DRM_FORMAT_R8, width := w, height := h, num_planes := 3,
           strides := [w, w, w],
           offsets := [0, 0 + w * height, (0 + w * height) + w * c_plane_height],
           sizes := [w * height, w * c_plane_height, w * c_plane_height],
           total_size := w * h }
  else none

/-- Model of `struct rectangle`. -/
structure Rect where
  x : Nat
  y : Nat
  width : Nat
  height : Nat
  deriving DecidableEq, Repr

/-- virgl_get_emulated_transfers_params from virtgpu_virgl.c: the list of
host transfer rectangles for a lock rectangle on an emulated buffer.  The
unrecognized-format case leaves the output uninitialized in C and is
modelled as `none`. -/
def virgl_get_emulated_transfers_params (bo_width bo_height bo_format : Nat)
    (transfer_box : Rect) : Option (List Rect) :=
  if transfer_box.x = 0 ∧ transfer_box.y = 0 ∧ transfer_box.width = bo_width ∧
      transfer_box.height = bo_height then
    (virgl_get_emulated_metadata bo_width bo_height bo_format).map fun m =>
      [{ x := 0, y := 0, width := m.width, height := m.height }]
  else if bo_format = DRM_FORMAT_NV12 ∨ bo_format = DRM_FORMAT_NV21 then
    -- Bi-planar
    let y_plane_height := bo_height
    some [{ x := transfer_box.x, y := transfer_box.y,
            width := transfer_box.width, height := transfer_box.height },
          { x := transfer_box.x, y := transfer_box.y + y_plane_height,
            width := transfer_box.width,
            height := DIV_ROUND_UP transfer_box.height 2 }]
  else if bo_format = DRM_FORMAT_YVU420 ∨ bo_format = DRM_FORMAT_YVU420_ANDROID then
    -- Tri-planar
    let y_plane_height := bo_height
    let c_plane_height := DIV_ROUND_UP bo_height 2
    some [{ x := transfer_box.x, y := transfer_box.y,
            width := transfer_box.width, height := transfer_box.height },
          { x := transfer_box.x, y := transfer_box.y + y_plane_height,
            width := DIV_ROUND_UP transfer_box.width 2,
            height := DIV_ROUND_UP transfer_box.height 2 },
          { x := transfer_box.x, y := transfer_box.y + y_plane_height + c_plane_height,
            width := DIV_ROUND_UP transfer_box.width 2,
            height := DIV_ROUND_UP transfer_box.height 2 }]
  else none

/-- Transfer decomposition as performed by virgl_bo_invalidate and
virgl_bo_flush in virtgpu_virgl.c: a natively supported combination uses
the caller's rectangle as the single transfer, otherwise the emulated
decomposition is used. -/
def virgl_bo_transfer_params (priv : VirglPriv) (bo_width bo_height bo_format bo_use : Nat)
    (rect : Rect) : Option (List Rect) :=
  if virgl_supports_combination_natively priv bo_format bo_use then some [rect]
  else virgl_get_emulated_transfers_params bo_width bo_height bo_format rect

/-- Result of the capability negotiation performed by virgl_get_caps: the
resulting capability set, the final `caps_is_v2` flag, the ordered list of
`cap_set_id` values issued to the host, and whether the last query
succeeded. -/
structure GetCapsResult where
  caps : VirglCaps
  caps_is_v2 : Bool
  queries : List Nat
  ok : Bool

/-- virgl_get_caps from virtgpu_virgl.c.  The host ioctl is modelled as an
oracle from `cap_set_id` to `Option VirglCaps` (`none` = the ioctl failed,
leaving the caller's zero-initialized buffer untouched).  When the
`capset_fix` parameter allows it, a version-2 query is attempted first; on
failure the `caps_is_v2` flag is cleared and the version-1 query is issued
once as a fallback. -/
def virgl_get_caps (param_capset_fix : Bool) (host : Nat → Option VirglCaps)
    (caps : VirglCaps) : GetCapsResult :=
  if param_capset_fix then
    match host 2 with
    | some c => { caps := c, caps_is_v2 := true, queries := [2], ok := true }
    | none =>
      match host 1 with
      | some c => { caps := c, caps_is_v2 := false, queries := [2, 1], ok := true }
      | none => { caps := caps, caps_is_v2 := false, queries := [2, 1], ok := false }
  else
    match host 1 with
    | some c => { caps := c, caps_is_v2 := false, queries := [1], ok := true }
    | none =>
      match host 1 with
      | some c => { caps := c, caps_is_v2 := false, queries := [1, 1], ok := true }
      | none => { caps := caps, caps_is_v2 := false, queries := [1, 1], ok := false }

/-- handle_flag from virtgpu_virgl.c, functionally: if `check_flag` is set
in `flag`, clear it there and set `virgl_bind` in `bind`. -/
def handle_flag (flag check_flag bind virgl_bind : Nat) : Nat × Nat :=
  if flag &&& check_flag ≠ 0 then (andNot flag check_flag, bind ||| virgl_bind)
  else (flag, bind)

/-- Sequence of handle_flag applications over an ordered rule list of
(usage bit, bind bit) pairs, threading (use flags, bind) state. -/
def apply_handle_flags (s : Nat × Nat) : List (Nat × Nat) → Nat × Nat
  | [] => s
  | r :: rest => apply_handle_flags (handle_flag s.1 r.1 s.2 r.2) rest

/-- Rules applied by compute_virgl_bind_flags before the protected/SW
special case, in source order. -/
def virgl_bind_flag_rules_head : List (Nat × Nat) :=
  [(BO_USE_TEXTURE, VIRGL_BIND_SAMPLER_VIEW),
   (BO_USE_RENDERING, VIRGL_BIND_RENDER_TARGET),
   (BO_USE_SCANOUT, VIRGL_BIND_SCANOUT),
   (BO_USE_CURSOR, VIRGL_BIND_CURSOR),
   (BO_USE_LINEAR, VIRGL_BIND_LINEAR),
   (BO_USE_SENSOR_DIRECT_DATA, VIRGL_BIND_LINEAR),
   (BO_USE_GPU_DATA_BUFFER, VIRGL_BIND_LINEAR),
   (BO_USE_FRONT_RENDERING, VIRGL_BIND_LINEAR)]

/-- Rules applied by compute_virgl_bind_flags after the protected/SW
special case, in source order. -/
def virgl_bind_flag_rules_tail : List (Nat × Nat) :=
  [(BO_USE_CAMERA_WRITE, VIRGL_BIND_MINIGBM_CAMERA_WRITE),
   (BO_USE_CAMERA_READ, VIRGL_BIND_MINIGBM_CAMERA_READ),
   (BO_USE_HW_VIDEO_DECODER, VIRGL_BIND_MINIGBM_HW_VIDEO_DECODER),
   (BO_USE_HW_VIDEO_ENCODER, VIRGL_BIND_MINIGBM_HW_VIDEO_ENCODER)]

/-- CPU-read-intent step of compute_virgl_bind_flags: the OFTEN rule takes
priority over the RARELY rule, so at most one of the two fires. -/
def virgl_bind_sw_read (s : Nat × Nat) : Nat × Nat :=
  if s.1 &&& BO_USE_SW_READ_OFTEN ≠ 0 then
    handle_flag s.1 BO_USE_SW_READ_OFTEN s.2 VIRGL_BIND_MINIGBM_SW_READ_OFTEN
  else handle_flag s.1 BO_USE_SW_READ_RARELY s.2 VIRGL_BIND_MINIGBM_SW_READ_RARELY

/-- CPU-write-intent step of compute_virgl_bind_flags, analogous to the
read step. -/
def virgl_bind_sw_write (s : Nat × Nat) : Nat × Nat :=
  if s.1 &&& BO_USE_SW_WRITE_OFTEN ≠ 0 then
    handle_flag s.1 BO_USE_SW_WRITE_OFTEN s.2 VIRGL_BIND_MINIGBM_SW_WRITE_OFTEN
  else handle_flag s.1 BO_USE_SW_WRITE_RARELY s.2 VIRGL_BIND_MINIGBM_SW_WRITE_RARELY

/-- Special-cased priority group of compute_virgl_bind_flags: a protected
usage maps to the protected bind bit alone, suppressing the independent
read/write-intent steps. -/
def virgl_bind_special (s : Nat × Nat) : Nat × Nat :=
  if s.1 &&& BO_USE_PROTECTED ≠ 0 then
    handle_flag s.1 BO_USE_PROTECTED s.2 VIRGL_BIND_MINIGBM_PROTECTED
  else virgl_bind_sw_write (virgl_bind_sw_read s)

/-- compute_virgl_bind_flags from virtgpu_virgl.c, returning both the bind
word and the residual (unhandled) usage bits that the source logs. -/
def compute_virgl_bind_flags_full (use_flags : Nat) : Nat × Nat :=
  let s := apply_handle_flags (use_flags, VIRGL_BIND_SHARED) virgl_bind_flag_rules_head
  let s := virgl_bind_special s
  let s := apply_handle_flags s virgl_bind_flag_rules_tail
  (s.2, s.1)

/-- compute_virgl_bind_flags as the source returns it: just the bind word. -/
def compute_virgl_bind_flags (use_flags : Nat) : Nat :=
  (compute_virgl_bind_flags_full use_flags).1

/-- First switch of virgl_3d_resolve_format_and_use_flags: resolve a
flexible format into an explicit format. -/
def virgl_3d_resolve_flex (format use_flags : Nat) : Nat × Nat :=
  if format = DRM_FORMAT_FLEX_IMPLEMENTATION_DEFINED then
    if use_flags &&& (BO_USE_CAMERA_READ ||| BO_USE_CAMERA_WRITE) ≠ 0 then
      (DRM_FORMAT_NV12, use_flags)
    else
      (DRM_FORMAT_XBGR8888,
        andNot use_flags BO_USE_HW_VIDEO_ENCODER ||| BO_USE_LINEAR)
  else if format = DRM_FORMAT_FLEX_YCbCr_420_888 then (DRM_FORMAT_NV12, use_flags)
  else (format, use_flags)

/-- Second switch of virgl_3d_resolve_format_and_use_flags: adjust usage
for the resolved explicit format. -/
def virgl_3d_resolve_explicit (priv : VirglPriv) (s : Nat × Nat) : Nat × Nat :=
  if s.1 = DRM_FORMAT_NV12 ∨ s.1 = DRM_FORMAT_ABGR8888 ∨ s.1 = DRM_FORMAT_ARGB8888 ∨
      s.1 = DRM_FORMAT_RGB565 ∨ s.1 = DRM_FORMAT_XBGR8888 ∨ s.1 = DRM_FORMAT_XRGB8888 then
    if s.2 &&& BO_USE_SCANOUT ≠ 0 ∧
        ¬ virgl_supports_combination_natively priv s.1 BO_USE_SCANOUT then
      (s.1, andNot s.2 BO_USE_SCANOUT)
    else s
  else if s.1 = DRM_FORMAT_YVU420_ANDROID then
    (s.1, andNot s.2 BO_USE_SCANOUT ||| BO_USE_LINEAR)
  else s

/-- virgl_3d_resolve_format_and_use_flags from virtgpu_virgl.c. -/
def virgl_3d_resolve_format_and_use_flags (priv : VirglPriv) (format use_flags : Nat) :
    Nat × Nat :=
  virgl_3d_resolve_explicit priv (virgl_3d_resolve_flex format use_flags)

/-- virgl_2d_resolve_format_and_use_flags from virtgpu_virgl.c. -/
def virgl_2d_resolve_format_and_use_flags (format use_flags : Nat) : Nat × Nat :=
  let out_use := if format ≠ DRM_FORMAT_XRGB8888 then andNot use_flags BO_USE_SCANOUT
    else use_flags
  if format = DRM_FORMAT_FLEX_IMPLEMENTATION_DEFINED then
    if use_flags &&& (BO_USE_CAMERA_READ ||| BO_USE_CAMERA_WRITE) ≠ 0 then
      (DRM_FORMAT_NV12, out_use)
    else (DRM_FORMAT_XBGR8888, andNot out_use BO_USE_HW_VIDEO_ENCODER)
  else if format = DRM_FORMAT_FLEX_YCbCr_420_888 then
    -- fallthrough into the YVU420_ANDROID case with the resolved format
    (DRM_FORMAT_YVU420_ANDROID, andNot out_use BO_USE_SCANOUT ||| BO_USE_LINEAR)
  else if format = DRM_FORMAT_YVU420_ANDROID then
    (DRM_FORMAT_YVU420_ANDROID, andNot out_use BO_USE_SCANOUT ||| BO_USE_LINEAR)
  else (format, out_use)

/-- virgl_resolve_format_and_use_flags from virtgpu_virgl.c: dispatches on
whether 3D is negotiated. -/
def virgl_resolve_format_and_use_flags (param_3d : Bool) (priv : VirglPriv)
    (format use_flags : Nat) : Nat × Nat :=
  if param_3d then virgl_3d_resolve_format_and_use_flags priv format use_flags
  else virgl_2d_resolve_format_and_use_flags format use_flags

/-- should_use_blob from virtgpu_virgl.c (with VIRTIO_GPU_NEXT configured,
so that the blob path is compiled in). -/
def should_use_blob (priv : VirglPriv) (format use_flags : Nat) : Bool :=
  -- Only use blob when host gbm is available
  if ¬ priv.host_gbm_enabled then false
  -- Use regular resources if only the GPU needs efficient access
  else if use_flags &&& (BO_USE_SW_READ_OFTEN ||| BO_USE_SW_WRITE_OFTEN ||| BO_USE_LINEAR |||
      BO_USE_NON_GPU_HW ||| BO_USE_GPU_DATA_BUFFER) = 0 then false
  else if format = DRM_FORMAT_R8 then true
  else if format = DRM_FORMAT_YVU420_ANDROID ∨ format = DRM_FORMAT_NV12 then
    decide (use_flags &&& BO_USE_SW_MASK = 0)
  else false

/-- Creation paths of the resource dispatcher. -/
inductive CreatePath where
  | blob
  | virgl3d
  | dumb
  deriving DecidableEq, Repr

/-- Path selection of virgl_bo_create from virtgpu_virgl.c. -/
def virgl_bo_create_path (param_resource_blob param_host_visible param_3d : Bool)
    (priv : VirglPriv) (format use_flags : Nat) : CreatePath :=
  if param_resource_blob ∧ param_host_visible ∧
      should_use_blob priv format use_flags then CreatePath.blob
  else if param_3d then CreatePath.virgl3d
  else CreatePath.dumb

/-- virgl_bo_create_with_modifiers from virtgpu_virgl.c: scan the modifier
list in order; on the first linear modifier perform an ordinary create with
`use_flags = 0` (modelled as `Except.ok` carrying those use flags); if no
modifier is linear, fail with -EINVAL and no host call. -/
def virgl_bo_create_with_modifiers (modifiers : List Nat) : Except Int Nat :=
  match modifiers with
  | [] => Except.error (-22)
  | m :: rest =>
    if m = DRM_FORMAT_MOD_LINEAR then Except.ok 0
    else virgl_bo_create_with_modifiers rest

/-- Format masks that declare no supported format, for concrete tests. -/
def zeroFormatMask : VirglSupportedFormatMask := ⟨fun _ => 0⟩

/-- Concrete capability state in which the host declared caps (version 1)
but supports no format at all, so nothing is natively supported. -/
def testPrivNoNative : VirglPriv :=
  { caps_is_v2 := false,
    caps := { max_version := 1, render := zeroFormatMask, sampler := zeroFormatMask,
              scanout := zeroFormatMask, max_texture_2d_size := 0 },
    host_gbm_enabled := false }

/-- Zero-initialized capability set, as left by calloc when both capability
queries fail: version 0 = unknown. -/
def zeroCaps : VirglCaps :=
  { max_version := 0, render := zeroFormatMask, sampler := zeroFormatMask,
    scanout := zeroFormatMask, max_texture_2d_size := 0 }

/-- Concrete device state with the zero-initialized (maximally permissive)
capability set. -/
def permissivePriv : VirglPriv :=
  { caps_is_v2 := false, caps := zeroCaps, host_gbm_enabled := false }

/-- Concrete device state with the host general buffer manager active. -/
def gbmPriv : VirglPriv :=
  { caps_is_v2 := false, caps := zeroCaps, host_gbm_enabled := true }

/-- C1: the emulated layout engine computes, for a biplanar format
(NV12/NV21), physical width `W`, physical height `H + ceil(H/2)`, plane 0
at offset 0 with stride `W` and size `W*H`, plane 1 at offset `W*H` with
stride `W` and size `W*ceil(H/2)`, total `W*(H + ceil(H/2))`; for a
triplanar format (YVU420/YVU420_ANDROID), physical width `ALIGN W 32`,
physical height `H + 2*ceil(H/2)`, planes stacked contiguously with the
stated sizes; and a logical 6x6 triplanar image yields width 32, height
12, offsets 0/192/288, sizes 192/96/96, total 384. -/
theorem C1_emulated_layout (W H fmt : Nat) :
    (fmt = DRM_FORMAT_NV12 ∨ fmt = DRM_FORMAT_NV21 →
      virgl_get_emulated_metadata W H fmt =
        some { format := DRM_FORMAT_R8, width := W, height := H + DIV_ROUND_UP H 2,
               num_planes := 2, strides := [W, W], offsets := [0, W * H],
               sizes := [W * H, W * DIV_ROUND_UP H 2],
               total_size := W * (H + DIV_ROUND_UP H 2) }) ∧
    (fmt = DRM_FORMAT_YVU420 ∨ fmt = DRM_FORMAT_YVU420_ANDROID →
      virgl_get_emulated_metadata W H fmt =
        some { format := DRM_FORMAT_R8, width := ALIGN W 32,
               height := H + 2 * DIV_ROUND_UP H 2, num_planes := 3,
               strides := [ALIGN W 32, ALIGN W 32, ALIGN W 32],
               offsets := [0, ALIGN W 32 * H,
                           ALIGN W 32 * H + ALIGN W 32 * DIV_ROUND_UP H 2],
               sizes := [ALIGN W 32 * H, ALIGN W 32 * DIV_ROUND_UP H 2,
                         ALIGN W 32 * DIV_ROUND_UP H 2],
               total_size := ALIGN W 32 * (H + 2 * DIV_ROUND_UP H 2) }) ∧
    virgl_get_emulated_metadata 6 6 DRM_FORMAT_YVU420 =
      some { format := DRM_FORMAT_R8, width := 32, height := 12, num_planes := 3,
             strides := [32, 32, 32], offsets := [0, 192, 288], sizes := [192, 96, 96],
             total_size := 384 } := by
  refine ⟨?_, ?_, by decide⟩
  · rintro (rfl | rfl)
    · rw [virgl_get_emulated_metadata, if_pos (Or.inl rfl)]
      simp
    · rw [virgl_get_emulated_metadata, if_pos (Or.inr rfl)]
      simp
  · rintro (rfl | rfl)
    · rw [virgl_get_emulated_metadata, if_neg (by decide), if_pos (Or.inl rfl)]
      simp
    · rw [virgl_get_emulated_metadata, if_neg (by decide), if_pos (Or.inr rfl)]
      simp

/-- Witness for C1 at the concrete biplanar 6x6 instance (the spec's
6x9/36/18/54 example). -/
theorem C1_emulated_layout_witness :
    virgl_get_emulated_metadata 6 6 DRM_FORMAT_NV12 =
      some { format := DRM_FORMAT_R8, width := 6, height := 9, num_planes := 2,
             strides := [6, 6], offsets := [0, 36], sizes := [36, 18],
             total_size := 54 } :=
  (C1_emulated_layout 6 6 DRM_FORMAT_NV12).1 (Or.inl rfl)

/-- C2: for a partial lock rectangle (one not equal to the full logical
buffer), a biplanar-emulated buffer decomposes into the two rectangles
`(x, y, w, h)` and `(x, y + H, w, ceil(h/2))`, and a triplanar-emulated
buffer into three rectangles `(x, y, w, h)`, `(x, y + H, ceil(w/2),
ceil(h/2))` and `(x, y + H + ceil(H/2), ceil(w/2), ceil(h/2))`. -/
theorem C2_emulated_transfers (W H fmt : Nat) (r : Rect)
    (h' : ¬(r.x = 0 ∧ r.y = 0 ∧ r.width = W ∧ r.height = H)) :
    (fmt = DRM_FORMAT_NV12 ∨ fmt = DRM_FORMAT_NV21 →
      virgl_get_emulated_transfers_params W H fmt r =
        some [{ x := r.x, y := r.y, width := r.width, height := r.height },
              { x := r.x, y := r.y + H, width := r.width,
                height := DIV_ROUND_UP r.height 2 }]) ∧
    (fmt = DRM_FORMAT_YVU420 ∨ fmt = DRM_FORMAT_YVU420_ANDROID →
      virgl_get_emulated_transfers_params W H fmt r =
        some [{ x := r.x, y := r.y, width := r.width, height := r.height },
              { x := r.x, y := r.y + H, width := DIV_ROUND_UP r.width 2,
                height := DIV_ROUND_UP r.height 2 },
              { x := r.x, y := r.y + H + DIV_ROUND_UP H 2,
                width := DIV_ROUND_UP r.width 2,
                height := DIV_ROUND_UP r.height 2 }]) := by
  constructor
  · rintro (rfl | rfl)
    · rw [virgl_get_emulated_transfers_params, if_neg h', if_pos (Or.inl rfl)]
    · rw [virgl_get_emulated_transfers_params, if_neg h', if_pos (Or.inr rfl)]
  · rintro (rfl | rfl)
    · rw [virgl_get_emulated_transfers_params, if_neg h', if_neg (by decide),
        if_pos (Or.inl rfl)]
    · rw [virgl_get_emulated_transfers_params, if_neg h', if_neg (by decide),
        if_pos (Or.inr rfl)]

/-- Witness for C2: the (2,2,2,2) lock on a biplanar-emulated 6x6 buffer
yields exactly the rectangles (2,2,2,2) and (2,8,2,1). -/
theorem C2_emulated_transfers_witness :
    virgl_get_emulated_transfers_params 6 6 DRM_FORMAT_NV12
        { x := 2, y := 2, width := 2, height := 2 } =
      some [{ x := 2, y := 2, width := 2, height := 2 },
            { x := 2, y := 8, width := 2, height := 1 }] :=
  (C2_emulated_transfers 6 6 DRM_FORMAT_NV12 { x := 2, y := 2, width := 2, height := 2 }
    (by decide)).1 (Or.inl rfl)

/-- C3: a lock rectangle equal to the entire logical buffer produces
exactly one transfer rectangle: the caller's full rectangle for a natively
handled buffer, and `(0, 0, synthesized width, synthesized height)` for an
emulated buffer. -/
theorem C3_full_rect_single_transfer (priv : VirglPriv) (W H fmt u : Nat) :
    (virgl_supports_combination_natively priv fmt u = true →
      virgl_bo_transfer_params priv W H fmt u { x := 0, y := 0, width := W, height := H } =
        some [{ x := 0, y := 0, width := W, height := H }]) ∧
    (virgl_supports_combination_natively priv fmt u = false →
      ∀ m, virgl_get_emulated_metadata W H fmt = some m →
        virgl_bo_transfer_params priv W H fmt u
            { x := 0, y := 0, width := W, height := H } =
          some [{ x := 0, y := 0, width := m.width, height := m.height }]) := by
  constructor
  · intro hnat
    rw [virgl_bo_transfer_params, if_pos hnat]
  · intro hnat m hm
    rw [virgl_bo_transfer_params, if_neg (by simp [hnat]),
      virgl_get_emulated_transfers_params, if_pos ⟨rfl, rfl, rfl, rfl⟩, hm]
    rfl

/-- Witness for C3: a native full-rect lock (permissive version-0 caps) and
an emulated full-rect lock (empty version-1 caps, NV12) at 6x6. -/
theorem C3_full_rect_single_transfer_witness :
    virgl_bo_transfer_params testPrivNoNative 6 6 DRM_FORMAT_NV12 BO_USE_TEXTURE
        { x := 0, y := 0, width := 6, height := 6 } =
      some [{ x := 0, y := 0, width := 6, height := 9 }] :=
  (C3_full_rect_single_transfer testPrivNoNative 6 6 DRM_FORMAT_NV12 BO_USE_TEXTURE).2
    (by decide)
    { format := DRM_FORMAT_R8, width := 6, height := 9, num_planes := 2,
      strides := [6, 6], offsets := [0, 36], sizes := [36, 18], total_size := 54 }
    (by decide)

/-- Bit `i` of the 64-bit all-ones mask. -/
theorem testBit_mask64 (i : Nat) : mask64.testBit i = decide (i < 64) :=
  Nat.testBit_two_pow_sub_one 64 i

/-- Bits at or above position 64 of a 64-bit value are clear. -/
theorem testBit_high_eq_false (m i : Nat) (hm : m < 2 ^ 64) (hi : ¬ i < 64) :
    m.testBit i = false :=
  Nat.testBit_lt_two_pow
    (lt_of_lt_of_le hm (Nat.pow_le_pow_right (by omega) (by omega)))

/-- Bit `i` of the modelled `u & ~m`. -/
theorem testBit_andNot (u m i : Nat) :
    (andNot u m).testBit i = (u.testBit i && ((m.testBit i).xor (decide (i < 64)))) := by
  simp [andNot, Nat.testBit_and, Nat.testBit_xor, testBit_mask64]

/-- A bitwise or is zero exactly when both operands are. -/
theorem lor_eq_zero_iff (a b : Nat) : a ||| b = 0 ↔ a = 0 ∧ b = 0 := by
  constructor
  · intro h
    constructor <;> apply Nat.eq_of_testBit_eq <;> intro i <;>
      have h' := congrArg (Nat.testBit · i) h <;>
      simp [Nat.testBit_or] at h' <;> simp [h'.1, h'.2]
  · rintro ⟨rfl, rfl⟩
    rfl

/-- Testing against a union of masks is testing against each separately. -/
theorem land_lor_eq_zero_iff (u a b : Nat) :
    u &&& (a ||| b) = 0 ↔ u &&& a = 0 ∧ u &&& b = 0 := by
  rw [Nat.and_or_distrib_left, lor_eq_zero_iff]

/-- Clearing a mask really clears it (for a mask that fits in 64 bits). -/
theorem andNot_land_self (u m : Nat) (hm64 : m < 2 ^ 64) : andNot u m &&& m = 0 := by
  apply Nat.eq_of_testBit_eq
  intro i
  simp only [Nat.testBit_and, testBit_andNot, Nat.zero_testBit]
  by_cases hi : i < 64
  · cases hu : u.testBit i <;> cases hm : m.testBit i <;> simp [hi]
  · simp [testBit_high_eq_false m i hm64 hi]

/-- Clearing the same mask twice is clearing it once. -/
theorem andNot_idem (u m : Nat) : andNot (andNot u m) m = andNot u m := by
  apply Nat.eq_of_testBit_eq
  intro i
  simp only [testBit_andNot]
  cases hu : u.testBit i <;> cases hm : m.testBit i <;> simp

/-- Two mask-clears commute. -/
theorem andNot_comm (u m m' : Nat) :
    andNot (andNot u m) m' = andNot (andNot u m') m := by
  apply Nat.eq_of_testBit_eq
  intro i
  simp only [testBit_andNot]
  cases hu : u.testBit i <;> cases hm : m.testBit i <;> cases hm' : m'.testBit i <;> simp

/-- Clearing a mask distributes over a bitwise or. -/
theorem andNot_lor (a b m : Nat) : andNot (a ||| b) m = andNot a m ||| andNot b m := by
  apply Nat.eq_of_testBit_eq
  intro i
  simp only [testBit_andNot, Nat.testBit_or]
  cases ha : a.testBit i <;> cases hb : b.testBit i <;> simp

/-- Or-ing the same mask twice is or-ing it once. -/
theorem lor_lor_self (a b : Nat) : (a ||| b) ||| b = a ||| b := by
  apply Nat.eq_of_testBit_eq
  intro i
  simp only [Nat.testBit_or]
  cases ha : a.testBit i <;> cases hb : b.testBit i <;> simp

/-- C4: the native-support predicate is true iff the capability version is 0,
or every relevant usage bit present (rendering, texture, scanout when the v2
query succeeded) has the host-translated format code in the corresponding
bitmask; and a format with no host translation (code 0) fails every bitmask
check. -/
theorem C4_native_support_iff (priv : VirglPriv) (f u : Nat) :
    (virgl_supports_combination_natively priv f u = true ↔
      priv.caps.max_version = 0 ∨
        ((u &&& BO_USE_RENDERING ≠ 0 →
            virgl_bitmask_supports_format priv.caps.render f = true) ∧
         (u &&& BO_USE_TEXTURE ≠ 0 →
            virgl_bitmask_supports_format priv.caps.sampler f = true) ∧
         (u &&& BO_USE_SCANOUT ≠ 0 ∧ priv.caps_is_v2 = true →
            virgl_bitmask_supports_format priv.caps.scanout f = true))) ∧
    (translate_format f = 0 →
      ∀ m : VirglSupportedFormatMask, virgl_bitmask_supports_format m f = false) := by
  constructor
  · rw [virgl_supports_combination_natively]
    split_ifs with h1 h2 h3 h4 <;> simp_all
  · intro h0 m
    simp [virgl_bitmask_supports_format, h0]

/-- Witness for C4: an untranslatable fourcc (code 1) fails the bitmask
check for a concrete mask. -/
theorem C4_native_support_iff_witness :
    virgl_bitmask_supports_format zeroFormatMask 1 = false :=
  (C4_native_support_iff testPrivNoNative 1 0).2 (by decide) zeroFormatMask

/-- C5: emulation support holds iff the host general buffer manager is not
active, the usage contains neither the rendering nor the scanout bit, R8 is
natively supported for the same usage, and the format is one of the four
recognized multi-planar YUV formats. -/
theorem C5_emulation_support_iff (priv : VirglPriv) (f u : Nat) :
    virgl_supports_combination_through_emulation priv f u = true ↔
      priv.host_gbm_enabled = false ∧
      u &&& BO_USE_RENDERING = 0 ∧ u &&& BO_USE_SCANOUT = 0 ∧
      virgl_supports_combination_natively priv DRM_FORMAT_R8 u = true ∧
      (f = DRM_FORMAT_NV12 ∨ f = DRM_FORMAT_NV21 ∨ f = DRM_FORMAT_YVU420 ∨
        f = DRM_FORMAT_YVU420_ANDROID) := by
  rw [virgl_supports_combination_through_emulation]
  by_cases h1 : priv.host_gbm_enabled = true
  · rw [if_pos h1]
    simp [h1]
  · rw [if_neg h1]
    rw [Bool.not_eq_true] at h1
    by_cases h2 : u &&& (BO_USE_RENDERING ||| BO_USE_SCANOUT) ≠ 0
    · rw [if_pos h2]
      simp only [Bool.false_eq_true, false_iff]
      rintro ⟨-, hr, hs, -, -⟩
      exact h2 ((land_lor_eq_zero_iff u _ _).mpr ⟨hr, hs⟩)
    · rw [if_neg h2]
      rw [not_ne_iff] at h2
      obtain ⟨hr, hs⟩ := (land_lor_eq_zero_iff u _ _).mp h2
      by_cases h3 : virgl_supports_combination_natively priv DRM_FORMAT_R8 u = true
      · rw [if_neg (by simp [h3])]
        simp [h1, hr, hs, h3]
      · rw [if_pos (by simp [h3])]
        simp only [Bool.false_eq_true, false_iff]
        rintro ⟨-, -, -, hn, -⟩
        exact h3 hn

/-- Witness for C5: NV12 for texture usage under the permissive version-0
capability state satisfies every conjunct, so emulation support holds. -/
theorem C5_emulation_support_iff_witness :
    virgl_supports_combination_through_emulation permissivePriv DRM_FORMAT_NV12
      BO_USE_TEXTURE = true :=
  (C5_emulation_support_iff permissivePriv DRM_FORMAT_NV12 BO_USE_TEXTURE).mpr
    ⟨rfl, by decide, by decide, by decide, Or.inl rfl⟩

/-- C7: when the extended (version-2) capability query fails, exactly one
retry with the version-1 query is issued (with the v2 flag cleared); if
that also fails, the capability set keeps its zero-initialized state
(version 0), in which the native-support predicate accepts every (format,
usage) pair. -/
theorem C7_caps_fallback (host : Nat → Option VirglCaps) (h2 : host 2 = none) :
    (virgl_get_caps true host zeroCaps).queries = [2, 1] ∧
    (virgl_get_caps true host zeroCaps).caps_is_v2 = false ∧
    (host 1 = none →
      (virgl_get_caps true host zeroCaps).caps = zeroCaps ∧
      ∀ (v2 gbm : Bool) (f u : Nat),
        virgl_supports_combination_natively
          { caps_is_v2 := v2, caps := (virgl_get_caps true host zeroCaps).caps,
            host_gbm_enabled := gbm } f u = true) := by
  cases hh : host 1 with
  | some c =>
    have hq : virgl_get_caps true host zeroCaps =
        { caps := c, caps_is_v2 := false, queries := [2, 1], ok := true } := by
      simp [virgl_get_caps, h2, hh]
    refine ⟨by simp [hq], by simp [hq], fun h1 => ?_⟩
    simp [hh] at h1
  | none =>
    have hq : virgl_get_caps true host zeroCaps =
        { caps := zeroCaps, caps_is_v2 := false, queries := [2, 1], ok := false } := by
      simp [virgl_get_caps, h2, hh]
    refine ⟨by simp [hq], by simp [hq], fun _ => ⟨by simp [hq], fun v2 gbm f u => ?_⟩⟩
    rw [hq]
    simp [virgl_supports_combination_natively, zeroCaps]

/-- Witness for C7: with a host failing both queries, the queries issued
are [2, 1], the caps stay zero-initialized, and a native-support check
passes. -/
theorem C7_caps_fallback_witness :
    (virgl_get_caps true (fun _ => none) zeroCaps).queries = [2, 1] ∧
    (virgl_get_caps true (fun _ => none) zeroCaps).caps = zeroCaps ∧
    virgl_supports_combination_natively
      { caps_is_v2 := false, caps := (virgl_get_caps true (fun _ => none) zeroCaps).caps,
        host_gbm_enabled := false } DRM_FORMAT_NV12
      (BO_USE_TEXTURE ||| BO_USE_SCANOUT) = true := by
  obtain ⟨hq, hv2, hrest⟩ := C7_caps_fallback (fun _ => none) rfl
  obtain ⟨hcaps, hnat⟩ := hrest rfl
  exact ⟨hq, hcaps, hnat false false DRM_FORMAT_NV12 (BO_USE_TEXTURE ||| BO_USE_SCANOUT)⟩

/-- Helper characterization of should_use_blob. -/
theorem should_use_blob_iff (priv : VirglPriv) (f u : Nat) :
    should_use_blob priv f u = true ↔
      priv.host_gbm_enabled = true ∧
      u &&& (BO_USE_SW_READ_OFTEN ||| BO_USE_SW_WRITE_OFTEN ||| BO_USE_LINEAR |||
        BO_USE_NON_GPU_HW ||| BO_USE_GPU_DATA_BUFFER) ≠ 0 ∧
      (f = DRM_FORMAT_R8 ∨
        ((f = DRM_FORMAT_NV12 ∨ f = DRM_FORMAT_YVU420_ANDROID) ∧
          u &&& BO_USE_SW_MASK = 0)) := by
  rw [should_use_blob]
  by_cases h1 : priv.host_gbm_enabled = true
  · rw [if_neg (by simp [h1])]
    by_cases h2 : u &&& (BO_USE_SW_READ_OFTEN ||| BO_USE_SW_WRITE_OFTEN ||| BO_USE_LINEAR |||
        BO_USE_NON_GPU_HW ||| BO_USE_GPU_DATA_BUFFER) = 0
    · rw [if_pos h2]
      simp [h2]
    · rw [if_neg h2]
      by_cases h3 : f = DRM_FORMAT_R8
      · rw [if_pos h3]
        simp [h1, h2, h3]
      · rw [if_neg h3]
        by_cases h4 : f = DRM_FORMAT_YVU420_ANDROID ∨ f = DRM_FORMAT_NV12
        · rw [if_pos h4]
          simp [h1, h2, h3]
          tauto
        · rw [if_neg h4]
          simp [h1, h2, h3]
          tauto
  · rw [if_pos (by simp [h1])]
    simp [h1]

/-- C9: the blob creation path is chosen iff blob resources and
host-visible memory are supported, the host general buffer manager is
active, the usage includes frequent CPU read or write, linear layout,
non-GPU hardware consumption, or raw GPU data-buffer use, and the format
is R8 or one of NV12/YVU420_ANDROID with no CPU-mapping usage; otherwise
creation dispatches to the 3D path when 3D is negotiated, else the dumb
path. -/
theorem C9_blob_path_iff (rb hv p3 : Bool) (priv : VirglPriv) (f u : Nat) :
    (virgl_bo_create_path rb hv p3 priv f u = CreatePath.blob ↔
      rb = true ∧ hv = true ∧ priv.host_gbm_enabled = true ∧
      u &&& (BO_USE_SW_READ_OFTEN ||| BO_USE_SW_WRITE_OFTEN ||| BO_USE_LINEAR |||
        BO_USE_NON_GPU_HW ||| BO_USE_GPU_DATA_BUFFER) ≠ 0 ∧
      (f = DRM_FORMAT_R8 ∨
        ((f = DRM_FORMAT_NV12 ∨ f = DRM_FORMAT_YVU420_ANDROID) ∧
          u &&& BO_USE_SW_MASK = 0))) ∧
    (virgl_bo_create_path rb hv p3 priv f u ≠ CreatePath.blob →
      virgl_bo_create_path rb hv p3 priv f u =
        if p3 then CreatePath.virgl3d else CreatePath.dumb) := by
  have hiff := should_use_blob_iff priv f u
  constructor
  · rw [virgl_bo_create_path]
    by_cases hc : rb = true ∧ hv = true ∧ should_use_blob priv f u = true
    · rw [if_pos hc]
      obtain ⟨hg, hu, hf⟩ := hiff.mp hc.2.2
      simp [hc.1, hc.2.1, hg, hu, hf]
    · rw [if_neg hc]
      constructor
      · intro hbad
        cases p3 <;> simp_all
      · rintro ⟨h1, h2, h3, h4, h5⟩
        exact absurd ⟨h1, h2, hiff.mpr ⟨h3, h4, h5⟩⟩ hc
  · intro hne
    rw [virgl_bo_create_path] at hne ⊢
    by_cases hc : rb = true ∧ hv = true ∧ should_use_blob priv f u = true
    · rw [if_pos hc] at hne
      exact absurd rfl hne
    · rw [if_neg hc]

/-- Witness for C9: blob-capable params with the host gbm active, R8
format and linear usage select the blob path. -/
theorem C9_blob_path_iff_witness :
    virgl_bo_create_path true true true gbmPriv DRM_FORMAT_R8 BO_USE_LINEAR =
      CreatePath.blob :=
  (C9_blob_path_iff true true true gbmPriv DRM_FORMAT_R8 BO_USE_LINEAR).1.mpr
    ⟨rfl, rfl, rfl, by decide, Or.inl rfl⟩

/-- C10: create-with-modifiers returns -EINVAL (with no host call issued)
when no modifier in the list is the linear modifier, and performs an
ordinary create with an empty usage-flag set when some modifier is
linear. -/
theorem C10_create_with_modifiers_cases (mods : List Nat) :
    ((∀ m ∈ mods, m ≠ DRM_FORMAT_MOD_LINEAR) →
      virgl_bo_create_with_modifiers mods = Except.error (-22)) ∧
    (DRM_FORMAT_MOD_LINEAR ∈ mods →
      virgl_bo_create_with_modifiers mods = Except.ok 0) := by
  induction mods with
  | nil =>
    exact ⟨fun _ => rfl, fun h => absurd h (List.not_mem_nil _)⟩
  | cons m rest ih =>
    constructor
    · intro h
      rw [virgl_bo_create_with_modifiers,
        if_neg (h m (List.mem_cons_self m rest))]
      exact ih.1 fun x hx => h x (List.mem_cons_of_mem m hx)
    · intro h
      by_cases hm : m = DRM_FORMAT_MOD_LINEAR
      · rw [virgl_bo_create_with_modifiers, if_pos hm]
      · rw [virgl_bo_create_with_modifiers, if_neg hm]
        rcases List.mem_cons.mp h with heq | hmem
        · exact absurd heq.symm hm
        · exact ih.2 hmem

/-- Witness for C10: a list without the linear modifier fails with -EINVAL
and a list containing it creates with zero usage flags. -/
theorem C10_create_with_modifiers_cases_witness :
    virgl_bo_create_with_modifiers [1, 2] = Except.error (-22) ∧
    virgl_bo_create_with_modifiers [1, 0] = Except.ok 0 :=
  ⟨(C10_create_with_modifiers_cases [1, 2]).1 (by decide),
   (C10_create_with_modifiers_cases [1, 0]).2 (by decide)⟩

/-- Single-bit test: and-ing with a one-bit mask is zero iff the bit is clear. -/
theorem land_single_bit (a k : Nat) : a &&& 2 ^ k = 0 ↔ a.testBit k = false := by
  constructor
  · intro h
    have h' := congrArg (Nat.testBit · k) h
    simpa [Nat.testBit_and, Nat.testBit_two_pow] using h'
  · intro h
    apply Nat.eq_of_testBit_eq
    intro i
    simp only [Nat.testBit_and, Nat.testBit_two_pow, Nat.zero_testBit]
    by_cases hk : k = i
    · subst hk
      simp [h]
    · simp [hk]

/-- A set bit makes the and with that one-bit mask nonzero. -/
theorem land_ne_zero_of_testBit (a m k : Nat) (hm : m = 2 ^ k)
    (h : a.testBit k = true) : a &&& m ≠ 0 := by
  subst hm
  intro h0
  rw [(land_single_bit a k).mp h0] at h
  exact Bool.noConfusion h

/-- A clear bit makes the and with that one-bit mask zero. -/
theorem land_eq_zero_of_testBit (a m k : Nat) (hm : m = 2 ^ k)
    (h : a.testBit k = false) : a &&& m = 0 := by
  subst hm
  exact (land_single_bit a k).mpr h

/-- andNot does not change bits outside the cleared mask. -/
theorem andNot_testBit_of_notbit (a m i : Nat) (hm : m.testBit i = false)
    (hi : i < 64) : (andNot a m).testBit i = a.testBit i := by
  simp [testBit_andNot, hm, hi]

/-- handle_flag only ever adds bits to the bind accumulator. -/
theorem handle_flag_bind_mono (f c b v i : Nat) (h : b.testBit i = true) :
    ((handle_flag f c b v).2).testBit i = true := by
  rw [handle_flag]
  split_ifs <;> simp [Nat.testBit_or, h]

/-- A bit in handle_flag's bind output comes from the input or the rule. -/
theorem handle_flag_bind_sub (f c b v i : Nat)
    (h : ((handle_flag f c b v).2).testBit i = true) :
    b.testBit i = true ∨ v.testBit i = true := by
  rw [handle_flag] at h
  split_ifs at h
  · simp only [Nat.testBit_or, Bool.or_eq_true] at h
    exact h
  · exact Or.inl h

/-- handle_flag only ever clears bits of the working usage flags. -/
theorem handle_flag_flag_sub (f c b v i : Nat)
    (h : ((handle_flag f c b v).1).testBit i = true) : f.testBit i = true := by
  rw [handle_flag] at h
  split_ifs at h
  · simp only [testBit_andNot, Bool.and_eq_true] at h
    exact h.1
  · exact h

/-- A rule chain only ever adds bits to the bind accumulator. -/
theorem apply_handle_flags_bind_mono (rules : List (Nat × Nat)) (s : Nat × Nat)
    (i : Nat) (h : (s.2).testBit i = true) :
    ((apply_handle_flags s rules).2).testBit i = true := by
  induction rules generalizing s with
  | nil => exact h
  | cons r rest ih =>
    rw [apply_handle_flags]
    exact ih _ (handle_flag_bind_mono s.1 r.1 s.2 r.2 i h)

/-- A rule chain leaves a bind bit alone when no rule in it sets that bit. -/
theorem apply_handle_flags_bind_preserve (rules : List (Nat × Nat)) (s : Nat × Nat)
    (i : Nat) (hr : ∀ r ∈ rules, (r.2).testBit i = false) :
    ((apply_handle_flags s rules).2).testBit i = (s.2).testBit i := by
  induction rules generalizing s with
  | nil => rfl
  | cons r rest ih =>
    rw [apply_handle_flags]
    rw [ih _ fun r' h' => hr r' (List.mem_cons_of_mem r h')]
    rw [handle_flag]
    have hr1 := hr r (List.mem_cons_self r rest)
    split_ifs
    · simp [Nat.testBit_or, hr1]
    · rfl

/-- A rule chain leaves a usage bit alone when no rule in it clears that bit. -/
theorem apply_handle_flags_flag_preserve (rules : List (Nat × Nat)) (s : Nat × Nat)
    (i : Nat) (hi : i < 64) (hr : ∀ r ∈ rules, (r.1).testBit i = false) :
    ((apply_handle_flags s rules).1).testBit i = (s.1).testBit i := by
  induction rules generalizing s with
  | nil => rfl
  | cons r rest ih =>
    rw [apply_handle_flags]
    rw [ih _ fun r' h' => hr r' (List.mem_cons_of_mem r h')]
    rw [handle_flag]
    have hr1 := hr r (List.mem_cons_self r rest)
    split_ifs
    · exact andNot_testBit_of_notbit s.1 r.1 i hr1 hi
    · rfl

/-- Nonzero and with a one-bit mask is exactly the bit being set. -/
theorem land_ne_iff_testBit (a m k : Nat) (hm : m = 2 ^ k) :
    a &&& m ≠ 0 ↔ a.testBit k = true := by
  subst hm
  rw [Ne, land_single_bit]
  simp

/-- Zero and with a one-bit mask is exactly the bit being clear. -/
theorem land_eq_iff_testBit (a m k : Nat) (hm : m = 2 ^ k) :
    a &&& m = 0 ↔ a.testBit k = false := by
  subst hm
  exact land_single_bit a k

/-- Bits of the read-often bind constant. -/
theorem testBit_VB_SW_READ_OFTEN (k : Nat) :
    VIRGL_BIND_MINIGBM_SW_READ_OFTEN.testBit k = decide (28 = k) :=
  Nat.testBit_two_pow

/-- Bits of the read-rarely bind constant. -/
theorem testBit_VB_SW_READ_RARELY (k : Nat) :
    VIRGL_BIND_MINIGBM_SW_READ_RARELY.testBit k = decide (29 = k) :=
  Nat.testBit_two_pow

/-- Bits of the write-often bind constant. -/
theorem testBit_VB_SW_WRITE_OFTEN (k : Nat) :
    VIRGL_BIND_MINIGBM_SW_WRITE_OFTEN.testBit k = decide (30 = k) :=
  Nat.testBit_two_pow

/-- Bits of the write-rarely bind constant. -/
theorem testBit_VB_SW_WRITE_RARELY (k : Nat) :
    VIRGL_BIND_MINIGBM_SW_WRITE_RARELY.testBit k = decide (31 = k) :=
  Nat.testBit_two_pow

/-- Bits of the protected bind constant. -/
theorem testBit_VB_PROTECTED (k : Nat) :
    VIRGL_BIND_MINIGBM_PROTECTED.testBit k = decide (27 = k) :=
  Nat.testBit_two_pow

/-- Closed form of the CPU-read-intent step. -/
theorem virgl_bind_sw_read_eq (s : Nat × Nat) :
    virgl_bind_sw_read s =
      if (s.1).testBit 9 = true then
        (andNot s.1 BO_USE_SW_READ_OFTEN, s.2 ||| VIRGL_BIND_MINIGBM_SW_READ_OFTEN)
      else if (s.1).testBit 10 = true then
        (andNot s.1 BO_USE_SW_READ_RARELY, s.2 ||| VIRGL_BIND_MINIGBM_SW_READ_RARELY)
      else (s.1, s.2) := by
  rw [virgl_bind_sw_read]
  by_cases h9 : (s.1).testBit 9 = true
  · rw [if_pos (land_ne_zero_of_testBit s.1 BO_USE_SW_READ_OFTEN 9 rfl h9), if_pos h9,
      handle_flag, if_pos (land_ne_zero_of_testBit s.1 BO_USE_SW_READ_OFTEN 9 rfl h9)]
  · rw [Bool.not_eq_true] at h9
    rw [if_neg (not_ne_iff.mpr (land_eq_zero_of_testBit s.1 BO_USE_SW_READ_OFTEN 9 rfl h9)),
      if_neg (by simp [h9]), handle_flag]
    by_cases h10 : (s.1).testBit 10 = true
    · rw [if_pos (land_ne_zero_of_testBit s.1 BO_USE_SW_READ_RARELY 10 rfl h10), if_pos h10]
    · rw [Bool.not_eq_true] at h10
      rw [if_neg (not_ne_iff.mpr
          (land_eq_zero_of_testBit s.1 BO_USE_SW_READ_RARELY 10 rfl h10)),
        if_neg (by simp [h10])]

/-- Closed form of the CPU-write-intent step. -/
theorem virgl_bind_sw_write_eq (s : Nat × Nat) :
    virgl_bind_sw_write s =
      if (s.1).testBit 11 = true then
        (andNot s.1 BO_USE_SW_WRITE_OFTEN, s.2 ||| VIRGL_BIND_MINIGBM_SW_WRITE_OFTEN)
      else if (s.1).testBit 12 = true then
        (andNot s.1 BO_USE_SW_WRITE_RARELY, s.2 ||| VIRGL_BIND_MINIGBM_SW_WRITE_RARELY)
      else (s.1, s.2) := by
  rw [virgl_bind_sw_write]
  by_cases h11 : (s.1).testBit 11 = true
  · rw [if_pos (land_ne_zero_of_testBit s.1 BO_USE_SW_WRITE_OFTEN 11 rfl h11), if_pos h11,
      handle_flag, if_pos (land_ne_zero_of_testBit s.1 BO_USE_SW_WRITE_OFTEN 11 rfl h11)]
  · rw [Bool.not_eq_true] at h11
    rw [if_neg (not_ne_iff.mpr
        (land_eq_zero_of_testBit s.1 BO_USE_SW_WRITE_OFTEN 11 rfl h11)),
      if_neg (by simp [h11]), handle_flag]
    by_cases h12 : (s.1).testBit 12 = true
    · rw [if_pos (land_ne_zero_of_testBit s.1 BO_USE_SW_WRITE_RARELY 12 rfl h12), if_pos h12]
    · rw [Bool.not_eq_true] at h12
      rw [if_neg (not_ne_iff.mpr
          (land_eq_zero_of_testBit s.1 BO_USE_SW_WRITE_RARELY 12 rfl h12)),
        if_neg (by simp [h12])]

/-- The special step with the protected usage bit set: the protected rule
alone fires. -/
theorem virgl_bind_special_prot (s : Nat × Nat) (h8 : (s.1).testBit 8 = true) :
    virgl_bind_special s =
      (andNot s.1 BO_USE_PROTECTED, s.2 ||| VIRGL_BIND_MINIGBM_PROTECTED) := by
  have hc : s.1 &&& BO_USE_PROTECTED ≠ 0 :=
    land_ne_zero_of_testBit s.1 BO_USE_PROTECTED 8 rfl h8
  rw [virgl_bind_special, if_pos hc, handle_flag, if_pos hc]

/-- The special step without the protected usage bit: read then write. -/
theorem virgl_bind_special_not_prot (s : Nat × Nat) (h8 : (s.1).testBit 8 = false) :
    virgl_bind_special s = virgl_bind_sw_write (virgl_bind_sw_read s) := by
  rw [virgl_bind_special,
    if_neg (not_ne_iff.mpr (land_eq_zero_of_testBit s.1 BO_USE_PROTECTED 8 rfl h8))]

/-- The special step only ever adds bits to the bind accumulator. -/
theorem virgl_bind_special_bind_mono (s : Nat × Nat) (i : Nat)
    (h : (s.2).testBit i = true) : ((virgl_bind_special s).2).testBit i = true := by
  rw [virgl_bind_special]
  split_ifs
  · exact handle_flag_bind_mono _ _ _ _ _ h
  · rw [virgl_bind_sw_write]
    have hr : ((virgl_bind_sw_read s).2).testBit i = true := by
      rw [virgl_bind_sw_read]
      split_ifs <;> exact handle_flag_bind_mono _ _ _ _ _ h
    split_ifs <;> exact handle_flag_bind_mono _ _ _ _ _ hr

/-- Read/write-intent bind bits produced by the special step without the
protected bit: OFTEN wins over RARELY, and nothing is chosen when neither
usage bit is present. -/
theorem virgl_bind_special_sw_bits (s : Nat × Nat) (h8 : (s.1).testBit 8 = false) :
    ((virgl_bind_special s).2).testBit 28 = ((s.2).testBit 28 || (s.1).testBit 9) ∧
    ((virgl_bind_special s).2).testBit 29 =
      ((s.2).testBit 29 || ((s.1).testBit 10 && !(s.1).testBit 9)) ∧
    ((virgl_bind_special s).2).testBit 30 = ((s.2).testBit 30 || (s.1).testBit 11) ∧
    ((virgl_bind_special s).2).testBit 31 =
      ((s.2).testBit 31 || ((s.1).testBit 12 && !(s.1).testBit 11)) := by
  rw [virgl_bind_special_not_prot s h8, virgl_bind_sw_read_eq]
  by_cases h9 : (s.1).testBit 9 = true
  · rw [if_pos h9, virgl_bind_sw_write_eq]
    have h11p : ((andNot s.1 BO_USE_SW_READ_OFTEN,
        s.2 ||| VIRGL_BIND_MINIGBM_SW_READ_OFTEN).1).testBit 11 = (s.1).testBit 11 :=
      andNot_testBit_of_notbit _ _ _ (by decide) (by omega)
    have h12p : ((andNot s.1 BO_USE_SW_READ_OFTEN,
        s.2 ||| VIRGL_BIND_MINIGBM_SW_READ_OFTEN).1).testBit 12 = (s.1).testBit 12 :=
      andNot_testBit_of_notbit _ _ _ (by decide) (by omega)
    by_cases h11 : (s.1).testBit 11 = true
    · rw [if_pos (h11p.trans h11)]
      simp [Nat.testBit_or, h9, h11, testBit_VB_SW_READ_OFTEN,
        testBit_VB_SW_READ_RARELY, testBit_VB_SW_WRITE_OFTEN, testBit_VB_SW_WRITE_RARELY]
    · rw [Bool.not_eq_true] at h11
      rw [if_neg (by simp [h11p, h11])]
      by_cases h12 : (s.1).testBit 12 = true
      · rw [if_pos (h12p.trans h12)]
        simp [Nat.testBit_or, h9, h11, h12, testBit_VB_SW_READ_OFTEN,
          testBit_VB_SW_READ_RARELY, testBit_VB_SW_WRITE_OFTEN, testBit_VB_SW_WRITE_RARELY]
      · rw [Bool.not_eq_true] at h12
        rw [if_neg (by simp [h12p, h12])]
        simp [Nat.testBit_or, h9, h11, h12, testBit_VB_SW_READ_OFTEN,
          testBit_VB_SW_READ_RARELY, testBit_VB_SW_WRITE_OFTEN, testBit_VB_SW_WRITE_RARELY]
  · rw [Bool.not_eq_true] at h9
    rw [if_neg (by simp [h9])]
    by_cases h10 : (s.1).testBit 10 = true
    · rw [if_pos h10, virgl_bind_sw_write_eq]
      have h11p : ((andNot s.1 BO_USE_SW_READ_RARELY,
          s.2 ||| VIRGL_BIND_MINIGBM_SW_READ_RARELY).1).testBit 11 = (s.1).testBit 11 :=
        andNot_testBit_of_notbit _ _ _ (by decide) (by omega)
      have h12p : ((andNot s.1 BO_USE_SW_READ_RARELY,
          s.2 ||| VIRGL_BIND_MINIGBM_SW_READ_RARELY).1).testBit 12 = (s.1).testBit 12 :=
        andNot_testBit_of_notbit _ _ _ (by decide) (by omega)
      by_cases h11 : (s.1).testBit 11 = true
      · rw [if_pos (h11p.trans h11)]
        simp [Nat.testBit_or, h9, h10, h11, testBit_VB_SW_READ_OFTEN,
          testBit_VB_SW_READ_RARELY, testBit_VB_SW_WRITE_OFTEN, testBit_VB_SW_WRITE_RARELY]
      · rw [Bool.not_eq_true] at h11
        rw [if_neg (by simp [h11p, h11])]
        by_cases h12 : (s.1).testBit 12 = true
        · rw [if_pos (h12p.trans h12)]
          simp [Nat.testBit_or, h9, h10, h11, h12, testBit_VB_SW_READ_OFTEN,
            testBit_VB_SW_READ_RARELY, testBit_VB_SW_WRITE_OFTEN, testBit_VB_SW_WRITE_RARELY]
        · rw [Bool.not_eq_true] at h12
          rw [if_neg (by simp [h12p, h12])]
          simp [Nat.testBit_or, h9, h10, h11, h12, testBit_VB_SW_READ_OFTEN,
            testBit_VB_SW_READ_RARELY, testBit_VB_SW_WRITE_OFTEN, testBit_VB_SW_WRITE_RARELY]
    · rw [Bool.not_eq_true] at h10
      rw [if_neg (by simp [h10]), virgl_bind_sw_write_eq]
      by_cases h11 : (s.1).testBit 11 = true
      · rw [if_pos (show (((s.1, s.2) : Nat × Nat).1).testBit 11 = true from h11)]
        simp [Nat.testBit_or, h9, h10, h11, testBit_VB_SW_READ_OFTEN,
          testBit_VB_SW_READ_RARELY, testBit_VB_SW_WRITE_OFTEN, testBit_VB_SW_WRITE_RARELY]
      · rw [Bool.not_eq_true] at h11
        rw [if_neg (by simp [h11])]
        by_cases h12 : (s.1).testBit 12 = true
        · rw [if_pos (show (((s.1, s.2) : Nat × Nat).1).testBit 12 = true from h12)]
          simp [Nat.testBit_or, h9, h10, h11, h12, testBit_VB_SW_READ_OFTEN,
            testBit_VB_SW_READ_RARELY, testBit_VB_SW_WRITE_OFTEN, testBit_VB_SW_WRITE_RARELY]
        · rw [Bool.not_eq_true] at h12
          rw [if_neg (by simp [h12])]
          simp [h9, h10, h11, h12]

/-- C6 (amended): every output of the flag translator contains the shared
bind bit; a protected usage maps to the protected bind bit and suppresses
every CPU-read/write-intent bind bit; otherwise AT MOST one CPU-read-intent
bind bit and at most one CPU-write-intent bind bit are chosen, each
independently — the often variant exactly when the often usage bit is
present, the rarely variant exactly when only the rarely usage bit is
present, and none when neither is requested; the concrete input
{TEXTURE, RENDERING, SW_READ_OFTEN, SW_WRITE_RARELY} yields exactly the
bind bits {SHARED, SAMPLER_VIEW, RENDER_TARGET, SW_READ_OFTEN,
SW_WRITE_RARELY} with zero residual usage. -/
theorem C6_bind_flag_translation (u : Nat) :
    compute_virgl_bind_flags u &&& VIRGL_BIND_SHARED ≠ 0 ∧
    (u &&& BO_USE_PROTECTED ≠ 0 →
      compute_virgl_bind_flags u &&& VIRGL_BIND_MINIGBM_PROTECTED ≠ 0 ∧
      compute_virgl_bind_flags u &&&
        (VIRGL_BIND_MINIGBM_SW_READ_OFTEN ||| VIRGL_BIND_MINIGBM_SW_READ_RARELY |||
          VIRGL_BIND_MINIGBM_SW_WRITE_OFTEN ||| VIRGL_BIND_MINIGBM_SW_WRITE_RARELY) = 0) ∧
    (u &&& BO_USE_PROTECTED = 0 →
      (compute_virgl_bind_flags u &&& VIRGL_BIND_MINIGBM_SW_READ_OFTEN ≠ 0 ↔
        u &&& BO_USE_SW_READ_OFTEN ≠ 0) ∧
      (compute_virgl_bind_flags u &&& VIRGL_BIND_MINIGBM_SW_READ_RARELY ≠ 0 ↔
        (u &&& BO_USE_SW_READ_RARELY ≠ 0 ∧ u &&& BO_USE_SW_READ_OFTEN = 0)) ∧
      (compute_virgl_bind_flags u &&& VIRGL_BIND_MINIGBM_SW_WRITE_OFTEN ≠ 0 ↔
        u &&& BO_USE_SW_WRITE_OFTEN ≠ 0) ∧
      (compute_virgl_bind_flags u &&& VIRGL_BIND_MINIGBM_SW_WRITE_RARELY ≠ 0 ↔
        (u &&& BO_USE_SW_WRITE_RARELY ≠ 0 ∧ u &&& BO_USE_SW_WRITE_OFTEN = 0))) ∧
    compute_virgl_bind_flags_full
        (BO_USE_TEXTURE ||| BO_USE_RENDERING ||| BO_USE_SW_READ_OFTEN |||
          BO_USE_SW_WRITE_RARELY) =
      (VIRGL_BIND_SHARED ||| VIRGL_BIND_SAMPLER_VIEW ||| VIRGL_BIND_RENDER_TARGET |||
        VIRGL_BIND_MINIGBM_SW_READ_OFTEN ||| VIRGL_BIND_MINIGBM_SW_WRITE_RARELY, 0) := by
  have hfp : ∀ k, k < 64 → (∀ r ∈ virgl_bind_flag_rules_head, (r.1).testBit k = false) →
      ((apply_handle_flags (u, VIRGL_BIND_SHARED) virgl_bind_flag_rules_head).1).testBit k
        = u.testBit k :=
    fun k hk hr => apply_handle_flags_flag_preserve _ _ _ hk hr
  have hbp : ∀ k, (∀ r ∈ virgl_bind_flag_rules_head, (r.2).testBit k = false) →
      VIRGL_BIND_SHARED.testBit k = false →
      ((apply_handle_flags (u, VIRGL_BIND_SHARED) virgl_bind_flag_rules_head).2).testBit k
        = false :=
    fun k hr hs => (apply_handle_flags_bind_preserve _ _ _ hr).trans hs
  have hCdef : compute_virgl_bind_flags u =
      (apply_handle_flags
        (virgl_bind_special
          (apply_handle_flags (u, VIRGL_BIND_SHARED) virgl_bind_flag_rules_head))
        virgl_bind_flag_rules_tail).2 := rfl
  have htailp : ∀ k, (∀ r ∈ virgl_bind_flag_rules_tail, (r.2).testBit k = false) →
      (compute_virgl_bind_flags u).testBit k =
        ((virgl_bind_special
          (apply_handle_flags (u, VIRGL_BIND_SHARED) virgl_bind_flag_rules_head)).2).testBit
          k :=
    fun k hk => by rw [hCdef, apply_handle_flags_bind_preserve _ _ _ hk]
  refine ⟨?_, ?_, ?_, by decide⟩
  · rw [land_ne_iff_testBit (compute_virgl_bind_flags u) VIRGL_BIND_SHARED 20 rfl, hCdef]
    exact apply_handle_flags_bind_mono _ _ _
      (virgl_bind_special_bind_mono _ _ (apply_handle_flags_bind_mono _ _ _
        (show VIRGL_BIND_SHARED.testBit 20 = true by decide)))
  · intro hprot
    have h8 : u.testBit 8 = true := (land_ne_iff_testBit u BO_USE_PROTECTED 8 rfl).mp hprot
    have hX8 : ((apply_handle_flags (u, VIRGL_BIND_SHARED)
        virgl_bind_flag_rules_head).1).testBit 8 = true :=
      (hfp 8 (by omega) (by decide)).trans h8
    have hspec := virgl_bind_special_prot _ hX8
    constructor
    · rw [land_ne_iff_testBit (compute_virgl_bind_flags u)
          VIRGL_BIND_MINIGBM_PROTECTED 27 rfl,
        htailp 27 (by decide), hspec]
      simp [Nat.testBit_or, testBit_VB_PROTECTED]
    · have hz : ∀ k, (∀ r ∈ virgl_bind_flag_rules_tail, (r.2).testBit k = false) →
          (∀ r ∈ virgl_bind_flag_rules_head, (r.2).testBit k = false) →
          VIRGL_BIND_SHARED.testBit k = false →
          VIRGL_BIND_MINIGBM_PROTECTED.testBit k = false →
          (compute_virgl_bind_flags u).testBit k = false := by
        intro k ht hh hs hp
        rw [htailp k ht, hspec]
        simp [Nat.testBit_or, hbp k hh hs, hp]
      rw [land_lor_eq_zero_iff, land_lor_eq_zero_iff, land_lor_eq_zero_iff]
      exact ⟨⟨⟨(land_eq_iff_testBit _ _ 28 rfl).mpr
              (hz 28 (by decide) (by decide) (by decide) (by decide)),
            (land_eq_iff_testBit _ _ 29 rfl).mpr
              (hz 29 (by decide) (by decide) (by decide) (by decide))⟩,
          (land_eq_iff_testBit _ _ 30 rfl).mpr
            (hz 30 (by decide) (by decide) (by decide) (by decide))⟩,
        (land_eq_iff_testBit _ _ 31 rfl).mpr
          (hz 31 (by decide) (by decide) (by decide) (by decide))⟩
  · intro hprot0
    have h8 : u.testBit 8 = false := (land_eq_iff_testBit u BO_USE_PROTECTED 8 rfl).mp hprot0
    have hX8 : ((apply_handle_flags (u, VIRGL_BIND_SHARED)
        virgl_bind_flag_rules_head).1).testBit 8 = false :=
      (hfp 8 (by omega) (by decide)).trans h8
    have hsw := virgl_bind_special_sw_bits _ hX8
    have h9 := hfp 9 (by omega) (by decide)
    have h10 := hfp 10 (by omega) (by decide)
    have h11 := hfp 11 (by omega) (by decide)
    have h12 := hfp 12 (by omega) (by decide)
    have hb28 := hbp 28 (by decide) (by decide)
    have hb29 := hbp 29 (by decide) (by decide)
    have hb30 := hbp 30 (by decide) (by decide)
    have hb31 := hbp 31 (by decide) (by decide)
    have hc28 : (compute_virgl_bind_flags u).testBit 28 = u.testBit 9 := by
      rw [htailp 28 (by decide), hsw.1, hb28, h9]
      simp
    have hc29 : (compute_virgl_bind_flags u).testBit 29 =
        (u.testBit 10 && !u.testBit 9) := by
      rw [htailp 29 (by decide), hsw.2.1, hb29, h10, h9]
      simp
    have hc30 : (compute_virgl_bind_flags u).testBit 30 = u.testBit 11 := by
      rw [htailp 30 (by decide), hsw.2.2.1, hb30, h11]
      simp
    have hc31 : (compute_virgl_bind_flags u).testBit 31 =
        (u.testBit 12 && !u.testBit 11) := by
      rw [htailp 31 (by decide), hsw.2.2.2, hb31, h12, h11]
      simp
    refine ⟨?_, ?_, ?_, ?_⟩
    · rw [land_ne_iff_testBit (compute_virgl_bind_flags u)
          VIRGL_BIND_MINIGBM_SW_READ_OFTEN 28 rfl,
        land_ne_iff_testBit u BO_USE_SW_READ_OFTEN 9 rfl, hc28]
    · rw [land_ne_iff_testBit (compute_virgl_bind_flags u)
          VIRGL_BIND_MINIGBM_SW_READ_RARELY 29 rfl,
        land_ne_iff_testBit u BO_USE_SW_READ_RARELY 10 rfl,
        land_eq_iff_testBit u BO_USE_SW_READ_OFTEN 9 rfl, hc29]
      cases hx : u.testBit 10 <;> cases hy : u.testBit 9 <;> simp
    · rw [land_ne_iff_testBit (compute_virgl_bind_flags u)
          VIRGL_BIND_MINIGBM_SW_WRITE_OFTEN 30 rfl,
        land_ne_iff_testBit u BO_USE_SW_WRITE_OFTEN 11 rfl, hc30]
    · rw [land_ne_iff_testBit (compute_virgl_bind_flags u)
          VIRGL_BIND_MINIGBM_SW_WRITE_RARELY 31 rfl,
        land_ne_iff_testBit u BO_USE_SW_WRITE_RARELY 12 rfl,
        land_eq_iff_testBit u BO_USE_SW_WRITE_OFTEN 11 rfl, hc31]
      cases hx : u.testBit 12 <;> cases hy : u.testBit 11 <;> simp

/-- Counterexample to C6 as stated: at the input {TEXTURE} the protected
usage bit is not set, yet the translator chooses NO CPU-read-intent bind
bit (neither often nor rarely), refuting the claim that exactly one
CPU-read-intent bind bit is chosen. -/
theorem C6_bind_flag_translation_counterexample :
    BO_USE_TEXTURE &&& BO_USE_PROTECTED = 0 ∧
    compute_virgl_bind_flags BO_USE_TEXTURE &&& VIRGL_BIND_MINIGBM_SW_READ_OFTEN = 0 ∧
    compute_virgl_bind_flags BO_USE_TEXTURE &&& VIRGL_BIND_MINIGBM_SW_READ_RARELY = 0 := by
  decide

/-- Witness for C6 at the spec's concrete input: the read-often bind bit is
chosen there. -/
theorem C6_bind_flag_translation_witness :
    compute_virgl_bind_flags
        (BO_USE_TEXTURE ||| BO_USE_RENDERING ||| BO_USE_SW_READ_OFTEN |||
          BO_USE_SW_WRITE_RARELY) &&&
      VIRGL_BIND_MINIGBM_SW_READ_OFTEN ≠ 0 := by
  have h := C6_bind_flag_translation
    (BO_USE_TEXTURE ||| BO_USE_RENDERING ||| BO_USE_SW_READ_OFTEN ||| BO_USE_SW_WRITE_RARELY)
  exact (h.2.2.1 (by decide)).1.mpr (by decide)

/-- The explicit-format switch of the 3D resolver never changes the format. -/
theorem virgl_3d_resolve_explicit_fst (priv : VirglPriv) (s : Nat × Nat) :
    (virgl_3d_resolve_explicit priv s).1 = s.1 := by
  rw [virgl_3d_resolve_explicit]
  split_ifs <;> rfl

/-- The explicit-format switch of the 3D resolver is idempotent. -/
theorem virgl_3d_resolve_explicit_idem (priv : VirglPriv) (s : Nat × Nat) :
    virgl_3d_resolve_explicit priv (virgl_3d_resolve_explicit priv s) =
      virgl_3d_resolve_explicit priv s := by
  by_cases c1 : s.1 = DRM_FORMAT_NV12 ∨ s.1 = DRM_FORMAT_ABGR8888 ∨
      s.1 = DRM_FORMAT_ARGB8888 ∨ s.1 = DRM_FORMAT_RGB565 ∨ s.1 = DRM_FORMAT_XBGR8888 ∨
      s.1 = DRM_FORMAT_XRGB8888
  · by_cases c2 : s.2 &&& BO_USE_SCANOUT ≠ 0 ∧
        ¬ virgl_supports_combination_natively priv s.1 BO_USE_SCANOUT
    · have h : virgl_3d_resolve_explicit priv s = (s.1, andNot s.2 BO_USE_SCANOUT) := by
        rw [virgl_3d_resolve_explicit, if_pos c1, if_pos c2]
      rw [h]
      have hz : andNot s.2 BO_USE_SCANOUT &&& BO_USE_SCANOUT = 0 :=
        andNot_land_self s.2 BO_USE_SCANOUT (by decide)
      show virgl_3d_resolve_explicit priv (s.1, andNot s.2 BO_USE_SCANOUT) =
        (s.1, andNot s.2 BO_USE_SCANOUT)
      rw [virgl_3d_resolve_explicit]
      rw [if_pos (show ((s.1, andNot s.2 BO_USE_SCANOUT) : Nat × Nat).1 = DRM_FORMAT_NV12 ∨
          _ = DRM_FORMAT_ABGR8888 ∨ _ = DRM_FORMAT_ARGB8888 ∨ _ = DRM_FORMAT_RGB565 ∨
          _ = DRM_FORMAT_XBGR8888 ∨ _ = DRM_FORMAT_XRGB8888 from c1)]
      rw [if_neg (by simp [hz])]
    · have h : virgl_3d_resolve_explicit priv s = s := by
        rw [virgl_3d_resolve_explicit, if_pos c1, if_neg c2]
      rw [h, h]
  · by_cases c2 : s.1 = DRM_FORMAT_YVU420_ANDROID
    · have h : virgl_3d_resolve_explicit priv s =
          (s.1, andNot s.2 BO_USE_SCANOUT ||| BO_USE_LINEAR) := by
        rw [virgl_3d_resolve_explicit, if_neg c1, if_pos c2]
      rw [h]
      show virgl_3d_resolve_explicit priv
          (s.1, andNot s.2 BO_USE_SCANOUT ||| BO_USE_LINEAR) =
        (s.1, andNot s.2 BO_USE_SCANOUT ||| BO_USE_LINEAR)
      rw [virgl_3d_resolve_explicit]
      rw [if_neg (show ¬(((s.1, andNot s.2 BO_USE_SCANOUT ||| BO_USE_LINEAR) :
          Nat × Nat).1 = DRM_FORMAT_NV12 ∨ _ = DRM_FORMAT_ABGR8888 ∨
          _ = DRM_FORMAT_ARGB8888 ∨ _ = DRM_FORMAT_RGB565 ∨ _ = DRM_FORMAT_XBGR8888 ∨
          _ = DRM_FORMAT_XRGB8888) from c1)]
      rw [if_pos (show ((s.1, andNot s.2 BO_USE_SCANOUT ||| BO_USE_LINEAR) :
          Nat × Nat).1 = DRM_FORMAT_YVU420_ANDROID from c2)]
      rw [andNot_lor, andNot_idem,
        show andNot BO_USE_LINEAR BO_USE_SCANOUT = BO_USE_LINEAR from by decide,
        lor_lor_self]
    · have h : virgl_3d_resolve_explicit priv s = s := by
        rw [virgl_3d_resolve_explicit, if_neg c1, if_neg c2]
      rw [h, h]

/-- The flex switch of the 3D resolver never produces a flexible format. -/
theorem virgl_3d_resolve_flex_not_flex (f u : Nat) :
    (virgl_3d_resolve_flex f u).1 ≠ DRM_FORMAT_FLEX_IMPLEMENTATION_DEFINED ∧
    (virgl_3d_resolve_flex f u).1 ≠ DRM_FORMAT_FLEX_YCbCr_420_888 := by
  rw [virgl_3d_resolve_flex]
  split_ifs with h1 h2 h3
  · exact ⟨show DRM_FORMAT_NV12 ≠ DRM_FORMAT_FLEX_IMPLEMENTATION_DEFINED from by decide,
      show DRM_FORMAT_NV12 ≠ DRM_FORMAT_FLEX_YCbCr_420_888 from by decide⟩
  · exact ⟨show DRM_FORMAT_XBGR8888 ≠ DRM_FORMAT_FLEX_IMPLEMENTATION_DEFINED from by decide,
      show DRM_FORMAT_XBGR8888 ≠ DRM_FORMAT_FLEX_YCbCr_420_888 from by decide⟩
  · exact ⟨show DRM_FORMAT_NV12 ≠ DRM_FORMAT_FLEX_IMPLEMENTATION_DEFINED from by decide,
      show DRM_FORMAT_NV12 ≠ DRM_FORMAT_FLEX_YCbCr_420_888 from by decide⟩
  · exact ⟨h1, h3⟩

/-- The flex switch of the 3D resolver leaves non-flexible formats alone. -/
theorem virgl_3d_resolve_flex_id (f u : Nat)
    (h1 : f ≠ DRM_FORMAT_FLEX_IMPLEMENTATION_DEFINED)
    (h2 : f ≠ DRM_FORMAT_FLEX_YCbCr_420_888) :
    virgl_3d_resolve_flex f u = (f, u) := by
  rw [virgl_3d_resolve_flex, if_neg h1, if_neg h2]

/-- The 3D resolver is idempotent. -/
theorem virgl_3d_resolve_idem (priv : VirglPriv) (f u : Nat) :
    virgl_3d_resolve_format_and_use_flags priv
        (virgl_3d_resolve_format_and_use_flags priv f u).1
        (virgl_3d_resolve_format_and_use_flags priv f u).2 =
      virgl_3d_resolve_format_and_use_flags priv f u := by
  obtain ⟨hn1, hn2⟩ := virgl_3d_resolve_flex_not_flex f u
  have hfst := virgl_3d_resolve_explicit_fst priv (virgl_3d_resolve_flex f u)
  simp only [virgl_3d_resolve_format_and_use_flags]
  rw [virgl_3d_resolve_flex_id _ _ (by rw [hfst]; exact hn1) (by rw [hfst]; exact hn2)]
  rw [Prod.mk.eta]
  exact virgl_3d_resolve_explicit_idem priv (virgl_3d_resolve_flex f u)

/-- The 2D resolver on a format outside its special cases: only the scanout
strip applies. -/
theorem virgl_2d_resolve_other (g v : Nat)
    (h1 : g ≠ DRM_FORMAT_FLEX_IMPLEMENTATION_DEFINED)
    (h2 : g ≠ DRM_FORMAT_FLEX_YCbCr_420_888)
    (h3 : g ≠ DRM_FORMAT_YVU420_ANDROID)
    (h4 : g ≠ DRM_FORMAT_XRGB8888) :
    virgl_2d_resolve_format_and_use_flags g v = (g, andNot v BO_USE_SCANOUT) := by
  simp only [virgl_2d_resolve_format_and_use_flags]
  rw [if_pos h4, if_neg h1, if_neg h2, if_neg h3]

/-- The 2D resolver on the designated primary-plane format is the identity. -/
theorem virgl_2d_resolve_XRGB (v : Nat) :
    virgl_2d_resolve_format_and_use_flags DRM_FORMAT_XRGB8888 v =
      (DRM_FORMAT_XRGB8888, v) := by
  simp only [virgl_2d_resolve_format_and_use_flags]
  rw [if_neg (show ¬(DRM_FORMAT_XRGB8888 ≠ DRM_FORMAT_XRGB8888) from by decide),
    if_neg (show ¬(DRM_FORMAT_XRGB8888 = DRM_FORMAT_FLEX_IMPLEMENTATION_DEFINED) from
      by decide),
    if_neg (show ¬(DRM_FORMAT_XRGB8888 = DRM_FORMAT_FLEX_YCbCr_420_888) from by decide),
    if_neg (show ¬(DRM_FORMAT_XRGB8888 = DRM_FORMAT_YVU420_ANDROID) from by decide)]

/-- The 2D resolver on the Android triplanar format strips scanout and
forces linear. -/
theorem virgl_2d_resolve_YVU (v : Nat) :
    virgl_2d_resolve_format_and_use_flags DRM_FORMAT_YVU420_ANDROID v =
      (DRM_FORMAT_YVU420_ANDROID, andNot v BO_USE_SCANOUT ||| BO_USE_LINEAR) := by
  simp only [virgl_2d_resolve_format_and_use_flags]
  rw [if_pos (show DRM_FORMAT_YVU420_ANDROID ≠ DRM_FORMAT_XRGB8888 from by decide),
    if_neg (show ¬(DRM_FORMAT_YVU420_ANDROID = DRM_FORMAT_FLEX_IMPLEMENTATION_DEFINED) from
      by decide),
    if_neg (show ¬(DRM_FORMAT_YVU420_ANDROID = DRM_FORMAT_FLEX_YCbCr_420_888) from
      by decide),
    if_pos trivial, andNot_idem]

/-- The 2D resolver is idempotent. -/
theorem virgl_2d_resolve_idem (f u : Nat) :
    virgl_2d_resolve_format_and_use_flags
        (virgl_2d_resolve_format_and_use_flags f u).1
        (virgl_2d_resolve_format_and_use_flags f u).2 =
      virgl_2d_resolve_format_and_use_flags f u := by
  by_cases hf1 : f = DRM_FORMAT_FLEX_IMPLEMENTATION_DEFINED
  · subst hf1
    by_cases hc : u &&& (BO_USE_CAMERA_READ ||| BO_USE_CAMERA_WRITE) ≠ 0
    · have h1 : virgl_2d_resolve_format_and_use_flags
          DRM_FORMAT_FLEX_IMPLEMENTATION_DEFINED u =
          (DRM_FORMAT_NV12, andNot u BO_USE_SCANOUT) := by
        simp only [virgl_2d_resolve_format_and_use_flags]
        rw [if_pos (show DRM_FORMAT_FLEX_IMPLEMENTATION_DEFINED ≠ DRM_FORMAT_XRGB8888 from
            by decide),
          if_pos trivial, if_pos hc]
      rw [h1]
      show virgl_2d_resolve_format_and_use_flags DRM_FORMAT_NV12 (andNot u BO_USE_SCANOUT) =
        (DRM_FORMAT_NV12, andNot u BO_USE_SCANOUT)
      rw [virgl_2d_resolve_other _ _ (by decide) (by decide) (by decide) (by decide),
        andNot_idem]
    · have h1 : virgl_2d_resolve_format_and_use_flags
          DRM_FORMAT_FLEX_IMPLEMENTATION_DEFINED u =
          (DRM_FORMAT_XBGR8888,
            andNot (andNot u BO_USE_SCANOUT) BO_USE_HW_VIDEO_ENCODER) := by
        simp only [virgl_2d_resolve_format_and_use_flags]
        rw [if_pos (show DRM_FORMAT_FLEX_IMPLEMENTATION_DEFINED ≠ DRM_FORMAT_XRGB8888 from
            by decide),
          if_pos trivial, if_neg hc]
      rw [h1]
      show virgl_2d_resolve_format_and_use_flags DRM_FORMAT_XBGR8888
          (andNot (andNot u BO_USE_SCANOUT) BO_USE_HW_VIDEO_ENCODER) =
        (DRM_FORMAT_XBGR8888, andNot (andNot u BO_USE_SCANOUT) BO_USE_HW_VIDEO_ENCODER)
      rw [virgl_2d_resolve_other _ _ (by decide) (by decide) (by decide) (by decide),
        andNot_comm (andNot u BO_USE_SCANOUT) BO_USE_HW_VIDEO_ENCODER BO_USE_SCANOUT,
        andNot_idem u BO_USE_SCANOUT]
  · by_cases hf2 : f = DRM_FORMAT_FLEX_YCbCr_420_888
    · subst hf2
      have h1 : virgl_2d_resolve_format_and_use_flags DRM_FORMAT_FLEX_YCbCr_420_888 u =
          (DRM_FORMAT_YVU420_ANDROID,
            andNot u BO_USE_SCANOUT ||| BO_USE_LINEAR) := by
        simp only [virgl_2d_resolve_format_and_use_flags]
        rw [if_pos (show DRM_FORMAT_FLEX_YCbCr_420_888 ≠ DRM_FORMAT_XRGB8888 from by decide),
          if_neg (show ¬(DRM_FORMAT_FLEX_YCbCr_420_888 =
            DRM_FORMAT_FLEX_IMPLEMENTATION_DEFINED) from by decide),
          if_pos trivial, andNot_idem]
      rw [h1]
      show virgl_2d_resolve_format_and_use_flags DRM_FORMAT_YVU420_ANDROID
          (andNot u BO_USE_SCANOUT ||| BO_USE_LINEAR) =
        (DRM_FORMAT_YVU420_ANDROID, andNot u BO_USE_SCANOUT ||| BO_USE_LINEAR)
      rw [virgl_2d_resolve_YVU, andNot_lor, andNot_idem,
        show andNot BO_USE_LINEAR BO_USE_SCANOUT = BO_USE_LINEAR from by decide,
        lor_lor_self]
    · by_cases hf3 : f = DRM_FORMAT_YVU420_ANDROID
      · subst hf3
        rw [virgl_2d_resolve_YVU]
        show virgl_2d_resolve_format_and_use_flags DRM_FORMAT_YVU420_ANDROID
            (andNot u BO_USE_SCANOUT ||| BO_USE_LINEAR) =
          (DRM_FORMAT_YVU420_ANDROID, andNot u BO_USE_SCANOUT ||| BO_USE_LINEAR)
        rw [virgl_2d_resolve_YVU, andNot_lor, andNot_idem,
          show andNot BO_USE_LINEAR BO_USE_SCANOUT = BO_USE_LINEAR from by decide,
          lor_lor_self]
      · by_cases hf4 : f = DRM_FORMAT_XRGB8888
        · subst hf4
          rw [virgl_2d_resolve_XRGB]
          show virgl_2d_resolve_format_and_use_flags DRM_FORMAT_XRGB8888 u =
            (DRM_FORMAT_XRGB8888, u)
          exact virgl_2d_resolve_XRGB u
        · rw [virgl_2d_resolve_other f u hf1 hf2 hf3 hf4]
          show virgl_2d_resolve_format_and_use_flags f (andNot u BO_USE_SCANOUT) =
            (f, andNot u BO_USE_SCANOUT)
          rw [virgl_2d_resolve_other f _ hf1 hf2 hf3 hf4, andNot_idem]

/-- C8: in both modes (3D negotiated or not), resolve-format-and-use-flags
is idempotent: applying it to its own output returns that output
unchanged. -/
theorem C8_resolve_idempotent (p3 : Bool) (priv : VirglPriv) (f u : Nat) :
    virgl_resolve_format_and_use_flags p3 priv
        (virgl_resolve_format_and_use_flags p3 priv f u).1
        (virgl_resolve_format_and_use_flags p3 priv f u).2 =
      virgl_resolve_format_and_use_flags p3 priv f u := by
  cases p3 with
  | false =>
    have h : ∀ g v, virgl_resolve_format_and_use_flags false priv g v =
        virgl_2d_resolve_format_and_use_flags g v := fun g v => by
      rw [virgl_resolve_format_and_use_flags, if_neg (by simp)]
    simp only [h]
    exact virgl_2d_resolve_idem f u
  | true =>
    have h : ∀ g v, virgl_resolve_format_and_use_flags true priv g v =
        virgl_3d_resolve_format_and_use_flags priv g v := fun g v => by
      rw [virgl_resolve_format_and_use_flags, if_pos rfl]
    simp only [h]
    exact virgl_3d_resolve_idem priv f u
